import Mathlib

/-!
Verification of `disk_cpu_load.py`.

The script measures the CPU load imposed by a disk read: it flushes device
buffers, samples `/proc/stat`, performs a bulk `dd` read, samples again,
computes the busy percentage between the two samples and compares it with a
threshold.  We embed the relevant functions shallowly: file contents are
`List Char`, Python exceptions are `Option`/`Except`, process exit is the
`Int` carried by `Except.error`, and the orchestration of the `__main__`
block is a function from the environment (subprocess return codes and the
two `/proc/stat` contents) to the list of external steps performed plus the
final exit code.
-/

namespace DiskCpuLoad

/-! ## Character-level utilities (Python string primitives) -/

/-- Python `str.split(sep)` for a one-character separator: splits at every
occurrence, keeping empty pieces (`"a  b".split(" ") == ["a", "", "b"]`). -/
def splitOnChar (sep : Char) : List Char → List (List Char)
  | [] => [[]]
  | c :: cs =>
    match splitOnChar sep cs with
    | t :: ts => if c = sep then [] :: t :: ts else (c :: t) :: ts
    | [] => [[c]]

/-- Whether `pat` is an initial segment of `l` (used both for the anchored
regular-expression match and as a spec-side notion of a line's leading
token). -/
def leadsList {α : Type} [DecidableEq α] : List α → List α → Bool
  | [], _ => true
  | _ :: _, [] => false
  | a :: as, b :: bs => if a = b then leadsList as bs else false

/-! ## Python `int()` on a string -/

/-- The ASCII whitespace characters stripped by Python `int()`. -/
def pyWs (c : Char) : Bool :=
  c = ' ' || c = '\t' || c = '\n' || c = '\x0b' || c = '\x0c' || c = '\r'

/-- Numeric value of an ASCII digit character. -/
def digitVal (c : Char) : Nat := c.toNat - 48

/-- Digits of a Python integer literal after the first digit: ASCII digits,
with a single underscore allowed between two digits. -/
def pyDigitsAux : List Char → Nat → Option Nat
  | [], acc => some acc
  | c :: cs, acc =>
    if c.isDigit then pyDigitsAux cs (acc * 10 + digitVal c)
    else if c = '_' then
      match cs with
      | [] => none
      | d :: cs2 => if d.isDigit then pyDigitsAux cs2 (acc * 10 + digitVal d) else none
    else none

/-- A non-empty run of digits (underscores allowed between digits). -/
def pyDigits (s : List Char) : Option Nat :=
  match s with
  | [] => none
  | c :: cs => if c.isDigit then pyDigitsAux cs (digitVal c) else none

/-- Python `int(token)`: strip surrounding whitespace, then an optional sign
followed by one or more ASCII digits (underscores permitted between digits).
Note that a leading `-` is accepted: Python `int` parses negative integers.
(Non-ASCII digit forms accepted by CPython are not modelled.) -/
def pyInt (s : List Char) : Option Int :=
  let t := ((s.dropWhile pyWs).reverse.dropWhile pyWs).reverse
  match t with
  | '-' :: rest => (pyDigits rest).map (fun n => -(n : Int))
  | '+' :: rest => (pyDigits rest).map (fun n => (n : Int))
  | _ => (pyDigits t).map (fun n => (n : Int))

/-! ## CounterReader: `get_cpu_load` -/

/-- Python `re.match("cpu .*", content)`: `re.match` is anchored at the
START of the string, `.` does not match a newline, so the match succeeds
exactly when the content begins with `"cpu "` and the matched group is the
first line of the content. `none` models a failed match (`None`). -/
def re_match_cpu (content : List Char) : Option (List Char) :=
  if leadsList "cpu ".toList content then
    some (content.takeWhile (fun c => c ≠ '\n'))
  else none

/-- Python `list(map(int, tokens))`: parse every token, failing (raising
`ValueError`) as soon as one token is not an integer. -/
def mapIntTokens : List (List Char) → Option (List Int)
  | [] => some []
  | t :: ts =>
    match pyInt t with
    | none => none
    | some n =>
      match mapIntTokens ts with
      | none => none
      | some ns => some (n :: ns)

/-- Embedding of `get_cpu_load`, with the contents of `/proc/stat` passed in
as `content`.  The source matches `"cpu .*"` against the whole file text,
splits the matched group on single spaces, drops the leading `"cpu"` token,
discards empty tokens, and parses the rest as integers.  `none` models the
uncaught exception paths (`AttributeError` when the match fails,
`ValueError` when a token is not an integer). -/
def get_cpu_load (content : List Char) : Option (List Int) :=
  match re_match_cpu content with
  | none => none
  | some line =>
    mapIntTokens (((splitOnChar ' ' line).drop 1).filter (fun t => t ≠ []))

/-- The token list of the first line of `content` after the leading `cpu`
field, as `get_cpu_load` would see it. -/
def cpuLineTokens (content : List Char) : List (List Char) :=
  ((splitOnChar ' ' (content.takeWhile (fun c => c ≠ '\n'))).drop 1).filter
    (fun t => t ≠ [])

/-- Spec-side notion (not taken from the source): the content has some line
whose leading token is the literal `cpu` followed by a space, wherever that
line occurs. -/
def hasAggregateCpuLine (content : List Char) : Bool :=
  (splitOnChar '\n' content).any (fun l => leadsList "cpu ".toList l)

/-! ## LoadCalculator: `compute_cpu_load` -/

/-- Embedding of `compute_cpu_load`.  The source indexes both snapshots at
position 3 (`IndexError`, modelled by `none`, when either list is shorter),
sums both lists, and returns `0` when the total difference is zero and the
Python floor division `diff_used * 100 // diff_total` otherwise
(`Int.fdiv` is floor division).  `verbose_mode` only controls a diagnostic
`print` in the source. -/
def compute_cpu_load (start_load end_load : List Int) (verbose_mode : Bool) :
    Option Int :=
  match end_load[3]?, start_load[3]? with
  | some e3, some s3 =>
    let diff_idle := e3 - s3
    let start_total := start_load.sum
    let end_total := end_load.sum
    let diff_total := end_total - start_total
    let diff_used := diff_total - diff_idle
    some (if diff_total = 0 then 0 else Int.fdiv (diff_used * 100) diff_total)
  | _, _ => none

/-! ## ExternalOps: `run_check_subprocess` -/

/-- Model of `subprocess.run(..., check=check)` for a command that runs and
terminates with `returncode`: with `check` set, a non-zero return code
raises `CalledProcessError` (modelled by `none`) before any value is
returned; otherwise the completed process (carrying its return code) is
returned. -/
def subprocess_run (check : Bool) (returncode : Int) : Option Int :=
  if check ∧ returncode ≠ 0 then none else some returncode

/-- Embedding of `run_check_subprocess`.  `check_arg` is a caller-supplied
`check` keyword, which the source overwrites with `True` before calling
`subprocess.run`; `returncode` is the spawned command's exit status.
`Except.error c` models `sys.exit(c)`.  In the source, `res_run` is
initialised to `None` and the assignment `res_run = subprocess.run(...)`
completes only when no exception is raised, so in the `except` handler
`res_run` is still `None` and the `sys.exit(res_run.returncode)` branch is
unreachable. -/
def run_check_subprocess (check_arg : Option Bool) (returncode : Int) :
    Except Int Unit :=
  let res_run : Option Int := none
  match subprocess_run true returncode with
  | some _ => Except.ok ()
  | none =>
    match res_run with
    | some r => Except.error r
    | none => Except.error 1

/-! ## Orchestration: the `__main__` block -/

/-- One externally visible step of the run. -/
inductive Step where
  | flush
  | capture
  | bulkRead
deriving DecidableEq

/-- The environment a run executes in: the return codes of the two spawned
commands and the contents of `/proc/stat` at the two sampling points. -/
structure Env where
  flush_rc : Int
  stat1 : List Char
  dd_rc : Int
  stat2 : List Char

/-- Embedding of the `__main__` block: flush buffers, take the first
snapshot, run the bulk `dd` read, take the second snapshot, compute the
load, and exit `1` when it exceeds `max_load`, else `0`.  The result is the
list of external steps that were started, paired with the process exit
code; an uncaught exception while parsing a snapshot (or indexing a short
one) terminates the interpreter with exit code `1`. -/
def main_run (max_load : Int) (verbose : Bool) (env : Env) : List Step × Int :=
  match run_check_subprocess none env.flush_rc with
  | Except.error c => ([Step.flush], c)
  | Except.ok _ =>
    match get_cpu_load env.stat1 with
    | none => ([Step.flush, Step.capture], 1)
    | some start_load =>
      match run_check_subprocess none env.dd_rc with
      | Except.error c => ([Step.flush, Step.capture, Step.bulkRead], c)
      | Except.ok _ =>
        match get_cpu_load env.stat2 with
        | none => ([Step.flush, Step.capture, Step.bulkRead, Step.capture], 1)
        | some end_load =>
          match compute_cpu_load start_load end_load verbose with
          | none => ([Step.flush, Step.capture, Step.bulkRead, Step.capture], 1)
          | some cpu_load =>
            ([Step.flush, Step.capture, Step.bulkRead, Step.capture],
              if cpu_load > max_load then 1 else 0)

/-! ## Arithmetic helper lemmas: `Int.fdiv` is floor division -/

/-- Flooring division is invariant under negating both operands. -/
theorem fdiv_neg_neg (a b : Int) : Int.fdiv (-a) (-b) = Int.fdiv a b := by
  rcases a with m | m <;> rcases b with n | n
  · rcases m with _ | m <;> rcases n with _ | n
    · rfl
    · rfl
    · show (0 : Int) = Int.ofNat (Nat.succ m / 0)
      rw [Nat.div_zero]
      rfl
    · rfl
  · rcases m with _ | m
    · rfl
    · rfl
  · rcases n with _ | n
    · show Int.ofNat (Nat.succ m / 0) = (0 : Int)
      rw [Nat.div_zero]
      rfl
    · rfl
  · rfl

/-- Flooring division by a positive integer is the floor of the rational
quotient. -/
theorem fdiv_eq_floor_pos (a b : Int) (hb : 0 < b) :
    Int.fdiv a b = ⌊(a : ℚ) / (b : ℚ)⌋ := by
  obtain ⟨n, rfl⟩ := Int.eq_ofNat_of_zero_le hb.le
  rw [Int.fdiv_eq_ediv _ (Int.ofNat_zero_le n), ← Rat.floor_intCast_div_natCast a n]
  norm_cast

/-- Flooring division by any non-zero integer is the floor of the rational
quotient; this is the rounding convention of Python `//`. -/
theorem fdiv_eq_floor (a b : Int) (hb : b ≠ 0) :
    Int.fdiv a b = ⌊(a : ℚ) / (b : ℚ)⌋ := by
  rcases lt_or_gt_of_ne hb with hneg | hpos
  · calc Int.fdiv a b = Int.fdiv (-a) (-b) := (fdiv_neg_neg a b).symm
      _ = ⌊((-a : ℤ) : ℚ) / ((-b : ℤ) : ℚ)⌋ := fdiv_eq_floor_pos _ _ (by omega)
      _ = ⌊(a : ℚ) / (b : ℚ)⌋ := by push_cast; rw [neg_div_neg_eq]
  · exact fdiv_eq_floor_pos a b hpos

/-- Characterization of `compute_cpu_load` on snapshots long enough to have
an idle entry at index 3 (shared helper). -/
theorem compute_cpu_load_eq (s e : List Int) (v : Bool)
    (hs : 3 < s.length) (he : 3 < e.length) :
    compute_cpu_load s e v =
      some (if e.sum - s.sum = 0 then 0
        else Int.fdiv ((e.sum - s.sum - (e.get ⟨3, he⟩ - s.get ⟨3, hs⟩)) * 100)
          (e.sum - s.sum)) := by
  simp only [compute_cpu_load, List.getElem?_eq_getElem hs,
    List.getElem?_eq_getElem he, List.get_eq_getElem]

/-- C1: on snapshot pairs with an idle entry at index 3, `compute_cpu_load`
returns `0` when `diffTotal = sum end - sum start` is zero, and otherwise
the floor of the rational `diffUsed * 100 / diffTotal` where
`diffUsed = diffTotal - (end idle - start idle)`; the rounding is genuine
floor (toward negative infinity) also for negative values. -/
theorem compute_cpu_load_floor_spec (s e : List Int) (v : Bool)
    (hs : 3 < s.length) (he : 3 < e.length) :
    compute_cpu_load s e v =
      some (if e.sum - s.sum = 0 then 0
        else ⌊(((e.sum - s.sum - (e.get ⟨3, he⟩ - s.get ⟨3, hs⟩)) * 100 : ℤ) : ℚ) /
          ((e.sum - s.sum : ℤ) : ℚ)⌋) := by
  rw [compute_cpu_load_eq s e v hs he]
  by_cases h0 : e.sum - s.sum = 0
  · simp [h0]
  · rw [if_neg h0, if_neg h0, fdiv_eq_floor _ _ h0]

/-- Witness for C1 at the spec's end-to-end scenario 1:
start `[10, 0, 0, 90]`, end `[20, 0, 0, 100]` gives load `50`. -/
theorem compute_cpu_load_floor_spec_witness :
    compute_cpu_load [10, 0, 0, 90] [20, 0, 0, 100] false = some 50 := by
  have h := compute_cpu_load_floor_spec [10, 0, 0, 90] [20, 0, 0, 100] false
    (by decide) (by decide)
  rw [h]
  norm_num [List.get]

/-- C7: the verbose flag (which only controls a diagnostic `print` in the
source) never affects the computed load. -/
theorem compute_cpu_load_verbose_invariant (s e : List Int) :
    compute_cpu_load s e true = compute_cpu_load s e false := rfl

/-- C8 counterexample: `compute_cpu_load` is not total on arbitrary integer
lists; on the empty snapshots the source raises `IndexError` at
`end_load[3]`, modelled by `none` (no integer result). -/
theorem compute_cpu_load_empty_fails :
    compute_cpu_load [] [] false = none := rfl

/-- C8 amended: `compute_cpu_load` never fails on snapshot pairs that have
an idle entry at index 3 (length at least 4): it always returns an integer
result, performing only integer arithmetic. -/
theorem compute_cpu_load_total_on_snapshots (s e : List Int) (v : Bool)
    (hs : 3 < s.length) (he : 3 < e.length) :
    (compute_cpu_load s e v).isSome = true := by
  rw [compute_cpu_load_eq s e v hs he]
  rfl

/-- Witness for the amended C8 on a concrete snapshot pair. -/
theorem compute_cpu_load_total_on_snapshots_witness :
    (compute_cpu_load [0, 0, 0, 0] [0, 0, 0, 0] true).isSome = true :=
  compute_cpu_load_total_on_snapshots [0, 0, 0, 0] [0, 0, 0, 0] true
    (by decide) (by decide)

/-- C10: the result of `compute_cpu_load` depends only on the sums of the
two snapshots and their entries at index 3: two snapshot pairs agreeing on
those four quantities yield equal results, regardless of lengths or how the
remaining counters are distributed. -/
theorem compute_cpu_load_depends_only_on_sums_and_idle
    (s1 e1 s2 e2 : List Int) (v : Bool)
    (hs1 : 3 < s1.length) (he1 : 3 < e1.length)
    (hs2 : 3 < s2.length) (he2 : 3 < e2.length)
    (hss : s1.sum = s2.sum) (hee : e1.sum = e2.sum)
    (hs3 : s1.get ⟨3, hs1⟩ = s2.get ⟨3, hs2⟩)
    (he3 : e1.get ⟨3, he1⟩ = e2.get ⟨3, he2⟩) :
    compute_cpu_load s1 e1 v = compute_cpu_load s2 e2 v := by
  rw [compute_cpu_load_eq s1 e1 v hs1 he1, compute_cpu_load_eq s2 e2 v hs2 he2,
    hss, hee, hs3, he3]

/-- Witness for C10: two snapshot pairs of different shape but equal sums
and idle entries give the same load. -/
theorem compute_cpu_load_depends_only_on_sums_and_idle_witness :
    compute_cpu_load [1, 2, 3, 4] [2, 3, 4, 5] false =
      compute_cpu_load [6, 0, 0, 4, 0] [9, 0, 0, 5, 0] false :=
  compute_cpu_load_depends_only_on_sums_and_idle
    [1, 2, 3, 4] [2, 3, 4, 5] [6, 0, 0, 4, 0] [9, 0, 0, 5, 0] false
    (by decide) (by decide) (by decide) (by decide)
    (by decide) (by decide) (by decide) (by decide)

/-! ## Helper lemmas about the reader -/

/-- Extending a list on the right preserves any initial segment. -/
theorem leadsList_append {α : Type} [DecidableEq α] (p l r : List α)
    (h : leadsList p l = true) : leadsList p (l ++ r) = true := by
  induction p generalizing l with
  | nil => rfl
  | cons a as ih =>
    cases l with
    | nil => simp [leadsList] at h
    | cons b bs =>
      simp only [leadsList, List.cons_append] at h ⊢
      by_cases hab : a = b
      · simp only [hab, if_true] at h ⊢
        exact ih bs h
      · simp [hab] at h

/-- `takeWhile` of a list all of whose elements satisfy the predicate. -/
theorem takeWhile_of_all (p : Char → Bool) (l : List Char)
    (hall : ∀ c ∈ l, p c = true) : l.takeWhile p = l := by
  induction l with
  | nil => rfl
  | cons c cs ih =>
    have hc : p c = true := hall c (by simp)
    simp [List.takeWhile_cons, hc, ih fun d hd => hall d (by simp [hd])]

/-- `takeWhile` stops exactly at the first failing element. -/
theorem takeWhile_append_stop (p : Char → Bool) (l : List Char)
    (hall : ∀ c ∈ l, p c = true) (x : Char) (hx : p x = false) (r : List Char) :
    (l ++ x :: r).takeWhile p = l := by
  induction l with
  | nil => simp [List.takeWhile_cons, hx]
  | cons c cs ih =>
    have hc : p c = true := hall c (by simp)
    simp [List.takeWhile_cons, hc, ih fun d hd => hall d (by simp [hd])]

/-- When the content begins with `"cpu "`, the reader parses exactly the
tokens of the first line. -/
theorem get_cpu_load_eq_of_leads (content : List Char)
    (h : leadsList "cpu ".toList content = true) :
    get_cpu_load content = mapIntTokens (cpuLineTokens content) := by
  unfold get_cpu_load re_match_cpu
  rw [if_pos h]
  rfl

/-- When the content does not begin with `"cpu "`, the anchored match fails
and the reader fails. -/
theorem get_cpu_load_none_of_not_leads (content : List Char)
    (h : leadsList "cpu ".toList content = false) :
    get_cpu_load content = none := by
  unfold get_cpu_load re_match_cpu
  rw [if_neg (by rw [h]; simp)]

/-- A single unparseable token makes the whole token parse fail. -/
theorem mapIntTokens_none_of_bad (ts : List (List Char)) (t : List Char)
    (ht : t ∈ ts) (hbad : pyInt t = none) : mapIntTokens ts = none := by
  induction ts with
  | nil => cases ht
  | cons a as ih =>
    rcases List.mem_cons.mp ht with rfl | hm
    · simp [mapIntTokens, hbad]
    · show mapIntTokens (a :: as) = none
      unfold mapIntTokens
      cases hpa : pyInt a
      · rfl
      · rw [ih hm]

/-- A successful token parse covers every token, in order. -/
theorem mapIntTokens_some_forall (ts : List (List Char)) (l : List Int)
    (h : mapIntTokens ts = some l) :
    List.Forall₂ (fun t n => pyInt t = some n) ts l := by
  induction ts generalizing l with
  | nil =>
    simp only [mapIntTokens, Option.some.injEq] at h
    subst h
    exact List.Forall₂.nil
  | cons a as ih =>
    unfold mapIntTokens at h
    cases hpa : pyInt a with
    | none => rw [hpa] at h; cases h
    | some n =>
      rw [hpa] at h
      cases hts : mapIntTokens as with
      | none => rw [hts] at h; cases h
      | some ns =>
        rw [hts] at h
        cases h
        exact List.Forall₂.cons hpa (ih ns hts)

/-! ## Claim theorems about the reader -/

/-- C2 counterexample: a content that contains an aggregate CPU line (in
the spec's sense, a line whose leading token is the literal `cpu` followed
by a space) which is not the first line: the reader fails instead of
locating it, because `re.match` is anchored at the start of the string. -/
theorem get_cpu_load_ignores_non_leading_aggregate_line :
    hasAggregateCpuLine ("cpu0 1 2 3 4\ncpu 5 6 7 8".toList) = true ∧
    get_cpu_load ("cpu0 1 2 3 4\ncpu 5 6 7 8".toList) = none := by
  constructor <;> decide

/-- C2 amended: the reader parses the aggregate CPU line only when it is
the first line of the content: if the content does not begin with `"cpu "`
the reader fails, and when the first line is the aggregate line the result
is computed from that line alone — everything after the first newline is
ignored. -/
theorem get_cpu_load_reads_only_leading_cpu_line :
    (∀ content : List Char, leadsList "cpu ".toList content = false →
      get_cpu_load content = none) ∧
    (∀ line rest : List Char, leadsList "cpu ".toList line = true →
      '\n' ∉ line → get_cpu_load (line ++ '\n' :: rest) = get_cpu_load line) := by
  constructor
  · exact get_cpu_load_none_of_not_leads
  · intro line rest h hnl
    have h2 : leadsList "cpu ".toList (line ++ '\n' :: rest) = true :=
      leadsList_append _ _ _ h
    rw [get_cpu_load_eq_of_leads _ h, get_cpu_load_eq_of_leads _ h2]
    unfold cpuLineTokens
    rw [takeWhile_append_stop _ line
      (fun c hc => by simp [decide_eq_true_eq]; exact fun hcn => hnl (hcn ▸ hc))
      '\n' (by simp) rest]
    rw [takeWhile_of_all _ line
      (fun c hc => by simp [decide_eq_true_eq]; exact fun hcn => hnl (hcn ▸ hc))]

/-- Witness for the amended C2: appending further lines after a leading
aggregate line does not change the parse. -/
theorem get_cpu_load_reads_only_leading_cpu_line_witness :
    get_cpu_load ("cpu 1 2".toList ++ '\n' :: "cpu0 9 9 9".toList) =
      get_cpu_load ("cpu 1 2".toList) :=
  get_cpu_load_reads_only_leading_cpu_line.2 "cpu 1 2".toList "cpu0 9 9 9".toList
    (by decide) (by decide)

/-- C3 counterexample: an aggregate line containing the negative token
`-2` is not rejected: Python `int` parses it, and the reader returns the
negative counter. -/
theorem get_cpu_load_accepts_negative_token :
    get_cpu_load ("cpu 1 -2 3 4".toList) = some [1, -2, 3, 4] := by decide

/-- C3 amended: the reader fails (raising, modelled by `none`) when the
content does not begin with the aggregate CPU line or when some field of
that line is not parseable as a Python integer — an optionally signed
integer, so negative tokens are accepted rather than rejected — and a
successful result is never partial: it parses every token of the line, in
order. -/
theorem get_cpu_load_malformed_data (content : List Char) :
    (leadsList "cpu ".toList content = false → get_cpu_load content = none) ∧
    ((∃ t ∈ cpuLineTokens content, pyInt t = none) →
      get_cpu_load content = none) ∧
    (∀ l, get_cpu_load content = some l →
      List.Forall₂ (fun t n => pyInt t = some n) (cpuLineTokens content) l) := by
  refine ⟨get_cpu_load_none_of_not_leads content, ?_, ?_⟩
  · rintro ⟨t, ht, hbad⟩
    by_cases hl : leadsList "cpu ".toList content
    · rw [get_cpu_load_eq_of_leads content hl]
      exact mapIntTokens_none_of_bad _ t ht hbad
    · exact get_cpu_load_none_of_not_leads content (by simpa using hl)
  · intro l hsome
    by_cases hl : leadsList "cpu ".toList content
    · rw [get_cpu_load_eq_of_leads content hl] at hsome
      exact mapIntTokens_some_forall _ _ hsome
    · rw [get_cpu_load_none_of_not_leads content (by simpa using hl)] at hsome
      cases hsome

/-- Witness for the amended C3: a non-numeric token in the aggregate line
makes the reader fail with no partial snapshot. -/
theorem get_cpu_load_malformed_data_witness :
    get_cpu_load ("cpu 1 x 3".toList) = none :=
  (get_cpu_load_malformed_data ("cpu 1 x 3".toList)).2.1
    ⟨"x".toList, by decide, by decide⟩

/-! ## Claim theorems about the external operations and orchestration -/

/-- Evaluation of `run_check_subprocess` (shared helper): the command's
return code alone decides the outcome, and the only possible exit code on
failure is the generic `1`. -/
theorem run_check_subprocess_eq (check_arg : Option Bool) (rc : Int) :
    run_check_subprocess check_arg rc =
      if rc = 0 then Except.ok () else Except.error 1 := by
  unfold run_check_subprocess subprocess_run
  by_cases h : rc = 0 <;> simp [h]

/-- C4: a bulk-read or flush command that terminates with status 5 makes
the program exit with the generic code 1, not with 5: in the source,
`subprocess.run` raises before the assignment to `res_run` completes, so
the handler's `res_run` is always `None` and the
`sys.exit(res_run.returncode)` branch that would mirror the status is
unreachable. -/
theorem run_check_subprocess_exit_is_generic :
    run_check_subprocess none 5 = Except.error 1 ∧ (1 : Int) ≠ 5 :=
  ⟨rfl, by decide⟩

/-- C9: every spawned command goes through `run_check_subprocess`, which
overrides any caller-supplied `check` keyword with `True`; consequently the
outcome is independent of the supplied value, the call returns normally
exactly when the command's return code is zero, and in the orchestration
the bulk read is only ever started when the buffer flush succeeded. -/
theorem run_check_subprocess_enforces_check :
    (∀ (a b : Option Bool) (rc : Int),
      run_check_subprocess a rc = run_check_subprocess b rc) ∧
    (∀ (a : Option Bool) (rc : Int),
      run_check_subprocess a rc = Except.ok () ↔ rc = 0) ∧
    (∀ (max_load : Int) (v : Bool) (env : Env),
      Step.bulkRead ∈ (main_run max_load v env).1 → env.flush_rc = 0) := by
  refine ⟨fun a b rc => rfl, fun a rc => ?_, fun max_load v env h => ?_⟩
  · rw [run_check_subprocess_eq]
    by_cases h : rc = 0 <;> simp [h]
  · by_cases hf : env.flush_rc = 0
    · exact hf
    · exfalso
      unfold main_run at h
      rw [run_check_subprocess_eq, if_neg hf] at h
      simp at h

/-- Witness for C9: with the caller-supplied `check` set to `False`, a
zero return code still returns normally; and in a run whose bulk read was
started, the flush return code was zero. -/
theorem run_check_subprocess_enforces_check_witness :
    run_check_subprocess (some false) 0 = Except.ok () ∧
    (⟨0, "cpu 1 1 1 1".toList, 5, []⟩ : Env).flush_rc = 0 :=
  ⟨(run_check_subprocess_enforces_check.2.1 (some false) 0).mpr rfl,
    run_check_subprocess_enforces_check.2.2 30 false
      ⟨0, "cpu 1 1 1 1".toList, 5, []⟩ (by decide)⟩

/-- C6: the externally visible steps of a run always form an initial
segment of flush, first snapshot, bulk read, second snapshot, and a
failure of a step prevents every later step: a failing flush means the
program exits non-zero with no snapshot taken and the bulk read never
started; a failing first snapshot means the bulk read is never started; a
failing bulk read means the second snapshot is never taken; each of these
runs exits non-zero. -/
theorem main_step_order (max_load : Int) (v : Bool) (env : Env) :
    (main_run max_load v env).1 <+:
      [Step.flush, Step.capture, Step.bulkRead, Step.capture] ∧
    (env.flush_rc ≠ 0 →
      (main_run max_load v env).1 = [Step.flush] ∧
      (main_run max_load v env).2 ≠ 0) ∧
    (env.flush_rc = 0 → get_cpu_load env.stat1 = none →
      (main_run max_load v env).1 = [Step.flush, Step.capture] ∧
      (main_run max_load v env).2 ≠ 0) ∧
    (env.flush_rc = 0 → env.dd_rc ≠ 0 → ∀ s, get_cpu_load env.stat1 = some s →
      (main_run max_load v env).1 = [Step.flush, Step.capture, Step.bulkRead] ∧
      (main_run max_load v env).2 ≠ 0) := by
  refine ⟨?_, ?_, ?_, ?_⟩
  · unfold main_run
    split
    · exact ⟨[Step.capture, Step.bulkRead, Step.capture], rfl⟩
    · split
      · exact ⟨[Step.bulkRead, Step.capture], rfl⟩
      · split
        · exact ⟨[Step.capture], rfl⟩
        · split
          · exact ⟨[], rfl⟩
          · split
            · exact ⟨[], rfl⟩
            · exact ⟨[], rfl⟩
  · intro hf
    unfold main_run
    rw [run_check_subprocess_eq, if_neg hf]
    refine ⟨rfl, ?_⟩
    show (1 : Int) ≠ 0
    decide
  · intro hf hg1
    unfold main_run
    rw [run_check_subprocess_eq, if_pos hf]
    dsimp only
    rw [hg1]
    refine ⟨rfl, ?_⟩
    show (1 : Int) ≠ 0
    decide
  · intro hf hd s hs
    unfold main_run
    rw [run_check_subprocess_eq, if_pos hf]
    dsimp only
    rw [hs]
    dsimp only
    rw [run_check_subprocess_eq, if_neg hd]
    refine ⟨rfl, ?_⟩
    show (1 : Int) ≠ 0
    decide

/-- Witness for C6, exercising the three failure points: a flush exiting
with status 5 leaves trace flush only; an unreadable first snapshot
prevents the bulk read; a bulk read exiting with status 7 prevents the
second snapshot; each run exits non-zero. -/
theorem main_step_order_witness :
    ((main_run 30 false ⟨5, [], 0, []⟩).1 = [Step.flush] ∧
      (main_run 30 false ⟨5, [], 0, []⟩).2 ≠ 0) ∧
    ((main_run 30 false ⟨0, [], 0, []⟩).1 = [Step.flush, Step.capture] ∧
      (main_run 30 false ⟨0, [], 0, []⟩).2 ≠ 0) ∧
    ((main_run 30 false ⟨0, "cpu 1 2 3 4".toList, 7, []⟩).1 =
        [Step.flush, Step.capture, Step.bulkRead] ∧
      (main_run 30 false ⟨0, "cpu 1 2 3 4".toList, 7, []⟩).2 ≠ 0) :=
  ⟨(main_step_order 30 false ⟨5, [], 0, []⟩).2.1 (by decide),
    (main_step_order 30 false ⟨0, [], 0, []⟩).2.2.1 rfl (by decide),
    (main_step_order 30 false ⟨0, "cpu 1 2 3 4".toList, 7, []⟩).2.2.2 rfl
      (by decide) [1, 2, 3, 4] (by decide)⟩

/-- C5: in a run whose two spawned commands succeed and whose snapshots
parse, the exit code is 0 exactly when the computed load is at most
`max_load` (equality is success); and the exit code is 1 whenever the
load strictly exceeds `max_load` or either external operation fails. -/
theorem main_exit_code (max_load : Int) (v : Bool) (env : Env)
    (s e : List Int) (load : Int)
    (h1 : get_cpu_load env.stat1 = some s)
    (h2 : get_cpu_load env.stat2 = some e)
    (hc : compute_cpu_load s e v = some load) :
    (env.flush_rc = 0 → env.dd_rc = 0 →
      ((main_run max_load v env).2 = 0 ↔ load ≤ max_load)) ∧
    (env.flush_rc ≠ 0 ∨ env.dd_rc ≠ 0 ∨ max_load < load →
      (main_run max_load v env).2 = 1) := by
  by_cases hf : env.flush_rc = 0
  · by_cases hd : env.dd_rc = 0
    · have hm : main_run max_load v env =
          ([Step.flush, Step.capture, Step.bulkRead, Step.capture],
            if load > max_load then 1 else 0) := by
        unfold main_run
        rw [run_check_subprocess_eq, if_pos hf, h1]
        dsimp only
        rw [run_check_subprocess_eq, if_pos hd, h2]
        dsimp only
        rw [hc]
      rw [hm]
      constructor
      · intro _ _
        by_cases hlm : load ≤ max_load
        · simp [not_lt.mpr hlm, hlm]
        · simp [not_le.mp hlm, hlm]
      · rintro (h | h | h)
        · exact absurd hf h
        · exact absurd hd h
        · simp [h]
    · have hm : (main_run max_load v env).2 = 1 := by
        unfold main_run
        rw [run_check_subprocess_eq, if_pos hf, h1]
        dsimp only
        rw [run_check_subprocess_eq, if_neg hd]
      exact ⟨fun _ hd0 => absurd hd0 hd, fun _ => hm⟩
  · have hm : (main_run max_load v env).2 = 1 := by
      unfold main_run
      rw [run_check_subprocess_eq, if_neg hf]
    exact ⟨fun hf0 => absurd hf0 hf, fun _ => hm⟩

/-- Witness for C5 at the spec's end-to-end scenario 3: snapshots giving
load 50 against the default threshold 30 make the run exit 1. -/
theorem main_exit_code_witness :
    (main_run 30 false
      ⟨0, "cpu 10 0 0 90".toList, 0, "cpu 20 0 0 100".toList⟩).2 = 1 :=
  (main_exit_code 30 false
      ⟨0, "cpu 10 0 0 90".toList, 0, "cpu 20 0 0 100".toList⟩
      [10, 0, 0, 90] [20, 0, 0, 100] 50
      (by decide) (by decide) (by decide)).2
    (Or.inr (Or.inr (by decide)))

end DiskCpuLoad
